import Mathlib

/-!
Verification of `qualtrics/csv_to_advanced_format.py`.

The program reads a CSV file with columns `topic`, `opinion`, `comment`
(pandas `read_csv`), opens an output text file, writes a fixed two-line
preamble, and then writes one formatted block per data row, separated by
`"\n\n"`, each block carrying a sequential identifier `GOV<i>`.

The embedding below models:
 * a parsed cell value (`CellValue`): pandas turns an empty CSV cell into
   the float NaN, whose f-string rendering is the text `nan`; every other
   cell is a string rendered verbatim;
 * a parsed row (`Row`) as an association list from column names to cell
   values; `row["c"]` is `rowGet`, which is `none` exactly when Python
   raises `KeyError c`;
 * the body of `_create_survey` (`surveyLoop`, `writeRowFields`,
   `createSurveyWrites`): the pair returned is the total text written to
   the output sink before the call finished (flushed at close of the
   `with open` block, on success and on exception alike) together with
   the column name of a `KeyError`, if one was raised;
 * the surrounding file I/O (`convertRun`): the input table is read fully
   before the output sink is opened, so a read failure leaves the file
   map untouched, while any run that opens the sink commits the written
   text to the output path;
 * the `main` entry point (`mainRun`, `parseArgs`): the documented
   contract of `argparse` for two options declared `required=True` —
   a missing option aborts with a usage error and exit status 2 before
   any file is touched.
-/

namespace Qualtrics

/-- A cell value as produced by the tabular parser (`pandas.read_csv`):
either a string, or the NaN placeholder produced for an empty cell. -/
inductive CellValue where
  | str (s : String)
  | nan
  deriving DecidableEq, Repr

/-- Rendering of a cell value inside a Python f-string: strings are
inserted verbatim, the float NaN prints as `nan`. -/
def CellValue.render : CellValue → String
  | .str s => s
  | .nan => "nan"

/-- Conversion of one raw CSV cell by `pandas.read_csv`: an empty cell
becomes NaN, any other cell is kept as its string. -/
def parseCell (s : String) : CellValue :=
  if s = "" then CellValue.nan else CellValue.str s

/-- A parsed data row: association from column names to cell values. -/
abbrev Row := List (String × CellValue)

/-- `row["c"]` on a pandas row: `none` models a raised `KeyError c`
(the column is absent from the header). -/
def rowGet (row : Row) (c : String) : Option CellValue :=
  List.lookup c row

/-- The fixed document preamble written first:
`[[AdvancedFormat]]`, blank line, `[[Block:GOVBlock]]`, blank line. -/
def preamble : String :=
  "[[AdvancedFormat]]\n\n[[Block:GOVBlock]]\n\n"

/-- The identifier rendered for the row at zero-based position `i`:
the bracketed directive `[[ID:GOV<i>]]` with `i` in decimal. -/
def idLine (i : Nat) : String :=
  "[[ID:GOV" ++ Nat.repr i ++ "]]"

/-- The first two lines of a row block:
`[[Question:TextEntry:Essay]]` and the identifier line. -/
def qidLines (i : Nat) : String :=
  "[[Question:TextEntry:Essay]]\n" ++ idLine i ++ "\n"

/-- The topic line of a block followed by its break marker. -/
def topicLine (t : CellValue) : String :=
  "<h4><strong>Topic:</strong> " ++ t.render ++ "</h4>\n<br/>\n"

/-- The opinion line of a block followed by its break marker. -/
def opinionLine (o : CellValue) : String :=
  "<h3><strong>Opinion:</strong> " ++ o.render ++ "</h3>\n<br/>\n"

/-- The comment line of a block (no trailing newline in the source). -/
def commentLine (c : CellValue) : String :=
  "<p><strong>&ldquo;" ++ c.render ++ "&rdquo;</strong></p>"

/-- The writes performed for one row of the loop body of
`_create_survey`, after the separator: first the question and identifier
lines, then each field line in order, where each `row["…"]` access
happens just before the line using it is written.  Returns the text
actually written and, if a column was absent, the `KeyError` column. -/
def writeRowFields (i : Nat) (row : Row) : String × Option String :=
  match rowGet row "topic" with
  | none => (qidLines i, some "topic")
  | some t =>
    match rowGet row "opinion" with
    | none => (qidLines i ++ topicLine t, some "opinion")
    | some o =>
      match rowGet row "comment" with
      | none => (qidLines i ++ topicLine t ++ opinionLine o, some "comment")
      | some c => (qidLines i ++ topicLine t ++ opinionLine o ++ commentLine c, none)

/-- The `for index, row in props.iterrows()` loop of `_create_survey`:
`sep` is the current value of the `separator` variable (`""` before the
first iteration, `"\n\n"` afterwards), `i` the running index of the
default RangeIndex, `acc` the text written so far.  On a `KeyError` the
partially written text is returned with the missing column. -/
def surveyLoop (sep : String) (i : Nat) (rows : List Row) (acc : String) :
    String × Option String :=
  match rows with
  | [] => (acc, none)
  | row :: rest =>
    match writeRowFields i row with
    | (frag, some col) => (acc ++ sep ++ frag, some col)
    | (frag, none) => surveyLoop "\n\n" (i + 1) rest (acc ++ sep ++ frag)

/-- All writes of `_create_survey` once the input has been parsed into
`rows`: the preamble followed by the row loop. -/
def createSurveyWrites (rows : List Row) : String × Option String :=
  surveyLoop "" 0 rows preamble

/-- Outcome of one `_create_survey` call. -/
inductive Outcome where
  | success
  | fileError
  | keyError (column : String)
  deriving DecidableEq, Repr

/-- The readable tables of the environment: a path maps to the parsed
row list `pandas.read_csv` would return, or to `none` when reading fails
(missing or unreadable file → `FileNotFoundError` / `FileError`). -/
abbrev Tables := String → Option (List Row)

/-- The text files of the environment, by path. -/
abbrev Files := String → Option String

/-- `_create_survey(input, output)` as a whole: the input is read and
parsed fully before `open(output, 'w')`; once the sink is opened, the
`with` block guarantees that everything written is flushed to the output
path at close, on the success path and on the `KeyError` path alike. -/
def convertRun (tables : Tables) (files : Files) (inputPath outputPath : String) :
    Outcome × Files :=
  match tables inputPath with
  | none => (Outcome.fileError, files)
  | some rows =>
    let written := createSurveyWrites rows
    let files2 : Files := fun p => if p = outputPath then some written.1 else files p
    match written.2 with
    | none => (Outcome.success, files2)
    | some col => (Outcome.keyError col, files2)

/-- Modelled from the documented `argparse` contract used by `main`:
the value of a `--flag value` option is the argument following the
first occurrence of the flag, `none` when the flag is absent. -/
def optValue (argv : List String) (flag : String) : Option String :=
  match argv with
  | [] => none
  | a :: rest => if a = flag then rest.head? else optValue rest flag

/-- The two parsed options of `main`. -/
structure Args where
  input_csv : String
  output_txt : String

/-- `parser.parse_args()` with both options declared `required=True`:
`none` models the usage error `argparse` raises (printing usage and
exiting with status 2) when a required option is missing. -/
def parseArgs (argv : List String) : Option Args :=
  match optValue argv "--input_csv", optValue argv "--output_txt" with
  | some i, some o => some ⟨i, o⟩
  | _, _ => none

/-- Outcome of one invocation of the program. -/
inductive MainOutcome where
  | usageError
  | ran (o : Outcome)
  deriving DecidableEq, Repr

/-- Process exit status: 2 for an `argparse` usage error, 0 on success,
1 for an uncaught Python exception. -/
def exitCode : MainOutcome → Nat
  | .usageError => 2
  | .ran .success => 0
  | .ran _ => 1

/-- `main()`: parse the options; on a usage error `argparse` exits
before `_create_survey` is called, so no file is read or written. -/
def mainRun (argv : List String) (tables : Tables) (files : Files) :
    MainOutcome × Files :=
  match parseArgs argv with
  | none => (MainOutcome.usageError, files)
  | some a =>
    let r := convertRun tables files a.input_csv a.output_txt
    (MainOutcome.ran r.1, r.2)

/-- A row on which every required column access succeeds. -/
def completeRow (r : Row) : Prop :=
  (rowGet r "topic").isSome ∧ (rowGet r "opinion").isSome ∧ (rowGet r "comment").isSome

instance (r : Row) : Decidable (completeRow r) := by
  unfold completeRow; infer_instance

/-- The cell a row holds in a column, with NaN standing in when the
column is absent (only used on complete rows). -/
def cellOrNan (r : Row) (c : String) : CellValue :=
  (rowGet r c).getD CellValue.nan

/-- The full rendered block of one row, as the specification describes it. -/
def blockOf (i : Nat) (r : Row) : String :=
  qidLines i ++ topicLine (cellOrNan r "topic")
    ++ opinionLine (cellOrNan r "opinion") ++ commentLine (cellOrNan r "comment")

/-- The rendered blocks of a row list, indices starting at `i`. -/
def blocksFrom (i : Nat) : List Row → List String
  | [] => []
  | r :: rest => blockOf i r :: blocksFrom (i + 1) rest

/-- Specification-side join: blocks concatenated with exactly one
`"\n\n"` separator between consecutive blocks, none leading or trailing. -/
def joinBlocks : List String → String
  | [] => ""
  | [b] => b
  | b :: b' :: bs => b ++ "\n\n" ++ joinBlocks (b' :: bs)

/-- Join with an explicit separator before the first block; mirrors the
shape of `surveyLoop` for the induction. -/
def sepJoin (sep : String) : List String → String
  | [] => ""
  | b :: bs => sep ++ (b ++ sepJoin "\n\n" bs)

/-- True when a string contains none of the markup-sensitive characters. -/
def noMarkup (s : String) : Bool :=
  s.data.all (fun ch => ch != '<' && ch != '>' && ch != '&')

/-- The two data rows of the worked example in the specification. -/
def exampleRows : List Row :=
  [[("topic", CellValue.str "Climate"), ("opinion", CellValue.str "Pro"),
    ("comment", CellValue.str "It\x27s real")],
   [("topic", CellValue.str "Tax"), ("opinion", CellValue.str "Con"),
    ("comment", CellValue.str "Too high")]]

/-- A row parsed from a table whose header lacks the `topic` column. -/
def missingTopicRow : Row :=
  [("opinion", CellValue.str "Pro"), ("comment", CellValue.str "Real")]

/-- A complete row with plain, markup-free field values. -/
def plainRow : Row :=
  [("topic", CellValue.str "Climate"), ("opinion", CellValue.str "Pro"),
   ("comment", CellValue.str "Real")]

/-- A row whose three required cells were all empty in the CSV. -/
def allNanRow : Row :=
  [("topic", parseCell ""), ("opinion", parseCell ""),
   ("comment", parseCell "")]

/-- An environment in which no input table is readable. -/
def noTables : Tables := fun _ => none

/-- An environment in which no file exists yet. -/
def noFiles : Files := fun _ => none

/-- An environment holding one table whose header lacks `topic`. -/
def cexTables : Tables :=
  fun p => if p = "in.csv" then some [missingTopicRow] else none

/-- An environment holding the worked example's table. -/
def exampleTables : Tables :=
  fun p => if p = "in.csv" then some exampleRows else none

theorem writeRowFields_complete (i : Nat) (row : Row) (t o c : CellValue)
    (h1 : rowGet row "topic" = some t) (h2 : rowGet row "opinion" = some o)
    (h3 : rowGet row "comment" = some c) :
    writeRowFields i row =
      (qidLines i ++ topicLine t ++ opinionLine o ++ commentLine c, none) := by
  simp [writeRowFields, h1, h2, h3]

theorem blockOf_complete (i : Nat) (row : Row) (t o c : CellValue)
    (h1 : rowGet row "topic" = some t) (h2 : rowGet row "opinion" = some o)
    (h3 : rowGet row "comment" = some c) :
    blockOf i row = qidLines i ++ topicLine t ++ opinionLine o ++ commentLine c := by
  simp [blockOf, cellOrNan, h1, h2, h3]

theorem surveyLoop_complete (rows : List Row) : ∀ (sep : String) (i : Nat) (acc : String),
    (∀ r ∈ rows, completeRow r) →
    surveyLoop sep i rows acc = (acc ++ sepJoin sep (blocksFrom i rows), none) := by
  induction rows with
  | nil =>
    intro sep i acc _
    simp [surveyLoop, blocksFrom, sepJoin, String.append_empty]
  | cons r rest ih =>
    intro sep i acc h
    have hr : completeRow r := h r (List.mem_cons_self r rest)
    obtain ⟨t, h1⟩ := Option.isSome_iff_exists.mp hr.1
    obtain ⟨o, h2⟩ := Option.isSome_iff_exists.mp hr.2.1
    obtain ⟨c, h3⟩ := Option.isSome_iff_exists.mp hr.2.2
    have hrest : ∀ r ∈ rest, completeRow r := fun r hm => h r (List.mem_cons_of_mem _ hm)
    rw [surveyLoop, writeRowFields_complete i r t o c h1 h2 h3]
    dsimp only
    rw [ih "\n\n" (i + 1) _ hrest, blocksFrom, sepJoin,
      blockOf_complete i r t o c h1 h2 h3]
    simp [String.append_assoc]

theorem sepJoin_join (bs : List String) : ∀ b : String,
    b ++ sepJoin "\n\n" bs = joinBlocks (b :: bs) := by
  induction bs with
  | nil => intro b; simp [sepJoin, joinBlocks, String.append_empty]
  | cons b' bs' ih =>
    intro b
    rw [sepJoin, joinBlocks]
    rw [← ih b']
    simp [String.append_assoc]

theorem blocksFrom_length (rows : List Row) : ∀ i : Nat,
    (blocksFrom i rows).length = rows.length := by
  induction rows with
  | nil => intro i; simp [blocksFrom]
  | cons r rest ih => intro i; simp [blocksFrom, ih]

/-- Claim C6: on an input with a valid header and zero data rows, the
output written is exactly the preamble (`[[AdvancedFormat]]`, blank
line, `[[Block:GOVBlock]]`, blank line) with no row blocks and no
trailing separator, and no error occurs. -/
theorem empty_table_writes_preamble_only :
    createSurveyWrites [] = (preamble, none) ∧
    preamble = "[[AdvancedFormat]]\n\n[[Block:GOVBlock]]\n\n" := by
  constructor
  · rfl
  · rfl

/-- Claim C1: for every table whose rows all carry the required columns,
the text written is the preamble followed by exactly one rendered block
per row, in input order, with exactly one blank-line separator (two
newline characters) between consecutive blocks and none before the
first or after the last. -/
theorem convert_blocks_and_separators (rows : List Row)
    (h : ∀ r ∈ rows, completeRow r) :
    createSurveyWrites rows = (preamble ++ joinBlocks (blocksFrom 0 rows), none) ∧
    (blocksFrom 0 rows).length = rows.length := by
  refine ⟨?_, blocksFrom_length rows 0⟩
  rw [createSurveyWrites, surveyLoop_complete rows "" 0 preamble h]
  cases hb : blocksFrom 0 rows with
  | nil => rw [sepJoin, joinBlocks]
  | cons b bs =>
    rw [← sepJoin_join bs b, sepJoin]
    simp [String.empty_append]

/-- Witness for C1 at the specification's example table. -/
theorem convert_blocks_and_separators_witness :
    (∀ r ∈ exampleRows, completeRow r) ∧
    (createSurveyWrites exampleRows =
      (preamble ++ joinBlocks (blocksFrom 0 exampleRows), none) ∧
    (blocksFrom 0 exampleRows).length = exampleRows.length) :=
  ⟨by decide, convert_blocks_and_separators exampleRows (by decide)⟩

theorem writeRowFields_qid (i : Nat) (row : Row) :
    ∃ rest : String, (writeRowFields i row).1 = qidLines i ++ rest := by
  unfold writeRowFields
  rcases rowGet row "topic" with _ | t
  · exact ⟨"", (String.append_empty _).symm⟩
  rcases rowGet row "opinion" with _ | o
  · exact ⟨topicLine t, rfl⟩
  rcases rowGet row "comment" with _ | c
  · exact ⟨topicLine t ++ opinionLine o, by simp [String.append_assoc]⟩
  · exact ⟨topicLine t ++ opinionLine o ++ commentLine c, by simp [String.append_assoc]⟩

/-- Claim C2: whatever the row contains, the block rendered at position
`i` starts with the `[[Question:TextEntry:Essay]]` line followed by the
identifier line, which is exactly `[[ID:GOV<i>]]` with `i` in decimal —
a function of the position alone, never of the field values. -/
theorem id_line_by_position (i : Nat) (row : Row) :
    (∃ rest : String, (writeRowFields i row).1 =
      "[[Question:TextEntry:Essay]]\n" ++ idLine i ++ "\n" ++ rest) ∧
    idLine i = "[[ID:GOV" ++ Nat.repr i ++ "]]" := by
  refine ⟨?_, rfl⟩
  obtain ⟨rest, hr⟩ := writeRowFields_qid i row
  refine ⟨rest, ?_⟩
  rw [hr]
  simp [qidLines, String.append_assoc]

set_option maxRecDepth 8000 in
/-- Claim C4: on the example table `[("Climate", "Pro", "It's real"),
("Tax", "Con", "Too high")]` the text written is exactly the output
shown in the specification, with one blank line between the two blocks
and no error. -/
theorem example_output_exact :
    createSurveyWrites exampleRows =
      ("[[AdvancedFormat]]\n\n[[Block:GOVBlock]]\n\n[[Question:TextEntry:Essay]]\n[[ID:GOV0]]\n<h4><strong>Topic:</strong> Climate</h4>\n<br/>\n<h3><strong>Opinion:</strong> Pro</h3>\n<br/>\n<p><strong>&ldquo;It\x27s real&rdquo;</strong></p>\n\n[[Question:TextEntry:Essay]]\n[[ID:GOV1]]\n<h4><strong>Topic:</strong> Tax</h4>\n<br/>\n<h3><strong>Opinion:</strong> Con</h3>\n<br/>\n<p><strong>&ldquo;Too high&rdquo;</strong></p>",
        none) := by
  rfl

/-- Claim C5: when the three field values are strings free of markup
characters, the rendered block embeds those exact strings verbatim in
the topic, opinion and comment template positions, and no error occurs. -/
theorem verbatim_field_roundtrip (i : Nat) (row : Row) (t o c : String)
    (h1 : rowGet row "topic" = some (CellValue.str t))
    (h2 : rowGet row "opinion" = some (CellValue.str o))
    (h3 : rowGet row "comment" = some (CellValue.str c))
    (hm1 : noMarkup t = true) (hm2 : noMarkup o = true) (hm3 : noMarkup c = true) :
    (writeRowFields i row).1 =
      qidLines i ++ ("<h4><strong>Topic:</strong> " ++ t ++ "</h4>\n<br/>\n")
        ++ ("<h3><strong>Opinion:</strong> " ++ o ++ "</h3>\n<br/>\n")
        ++ ("<p><strong>&ldquo;" ++ c ++ "&rdquo;</strong></p>") ∧
    (writeRowFields i row).2 = none := by
  rw [writeRowFields_complete i row _ _ _ h1 h2 h3]
  exact ⟨rfl, rfl⟩

/-- Witness for C5 at a concrete markup-free row. -/
theorem verbatim_field_roundtrip_witness :
    (noMarkup "Climate" = true ∧ noMarkup "Pro" = true ∧ noMarkup "Real" = true) ∧
    ((writeRowFields 0 plainRow).1 =
      qidLines 0 ++ ("<h4><strong>Topic:</strong> " ++ "Climate" ++ "</h4>\n<br/>\n")
        ++ ("<h3><strong>Opinion:</strong> " ++ "Pro" ++ "</h3>\n<br/>\n")
        ++ ("<p><strong>&ldquo;" ++ "Real" ++ "&rdquo;</strong></p>") ∧
    (writeRowFields 0 plainRow).2 = none) :=
  ⟨⟨by decide, by decide, by decide⟩,
    verbatim_field_roundtrip 0 plainRow "Climate" "Pro" "Real"
      (by decide) (by decide) (by decide) (by decide) (by decide) (by decide)⟩

/-- Claim C3 fails on the code: with a header lacking `topic` and one
data row, the run does fail identifying the missing column, but the
output file exists and holds more than the preamble — the partial block
lines written before the failing access remain. -/
theorem missing_column_claim_fails :
    (convertRun cexTables noFiles "in.csv" "out.txt").1 = Outcome.keyError "topic" ∧
    ¬((convertRun cexTables noFiles "in.csv" "out.txt").2 "out.txt" = none ∨
      (convertRun cexTables noFiles "in.csv" "out.txt").2 "out.txt" = some preamble) := by
  decide

/-- Claim C3, amended: when the first row lacks a required column, the
run fails with a `KeyError` naming the first missing column, and the
output file holds the preamble followed by the partial block text
written before the failing access. -/
theorem missing_column_partial_output (tables : Tables) (files : Files)
    (ip op : String) (row : Row) (rest : List Row) (frag col : String)
    (hin : tables ip = some (row :: rest))
    (hw : writeRowFields 0 row = (frag, some col)) :
    (convertRun tables files ip op).1 = Outcome.keyError col ∧
    (convertRun tables files ip op).2 op = some (preamble ++ frag) := by
  have hc : createSurveyWrites (row :: rest) = (preamble ++ frag, some col) := by
    rw [createSurveyWrites, surveyLoop, hw]
    dsimp only
    rw [String.append_empty]
  constructor
  · simp [convertRun, hin, hc]
  · simp [convertRun, hin, hc]

/-- Witness for the amended C3 at a concrete table missing `topic`. -/
theorem missing_column_partial_output_witness :
    (cexTables "in.csv" = some [missingTopicRow] ∧
      writeRowFields 0 missingTopicRow = (qidLines 0, some "topic")) ∧
    ((convertRun cexTables noFiles "in.csv" "out.txt").1 = Outcome.keyError "topic" ∧
     (convertRun cexTables noFiles "in.csv" "out.txt").2 "out.txt" =
       some (preamble ++ qidLines 0)) :=
  ⟨⟨by decide, by decide⟩,
    missing_column_partial_output cexTables noFiles "in.csv" "out.txt"
      missingTopicRow [] (qidLines 0) "topic" (by decide) (by decide)⟩

theorem optValue_none (flag : String) : ∀ argv : List String,
    flag ∉ argv → optValue argv flag = none := by
  intro argv
  induction argv with
  | nil => intro _; rfl
  | cons a rest ih =>
    intro h
    rw [List.mem_cons] at h
    push_neg at h
    rw [optValue, if_neg (fun hh => h.1 hh.symm)]
    exact ih h.2

/-- Claim C7: when either required option is absent from the argument
list, the invocation stops with a usage error and a nonzero exit
status, the file system is untouched, and this holds for every state of
the readable tables — no input is read and no output is written. -/
theorem missing_option_usage_error (argv : List String) (tables : Tables) (files : Files)
    (h : "--input_csv" ∉ argv ∨ "--output_txt" ∉ argv) :
    mainRun argv tables files = (MainOutcome.usageError, files) ∧
    exitCode (mainRun argv tables files).1 ≠ 0 := by
  have hp : parseArgs argv = none := by
    unfold parseArgs
    rcases h with h | h
    · rw [optValue_none _ _ h]
    · rw [optValue_none _ _ h]
      rcases optValue argv "--input_csv" with _ | i <;> rfl
  constructor
  · rw [mainRun, hp]
  · rw [mainRun, hp]
    simp [exitCode]

/-- Witness for C7: an invocation missing `--input_csv`. -/
theorem missing_option_usage_error_witness :
    ("--input_csv" ∉ (["--output_txt", "out.txt"] : List String) ∨
      "--output_txt" ∉ (["--output_txt", "out.txt"] : List String)) ∧
    (mainRun ["--output_txt", "out.txt"] exampleTables noFiles =
      (MainOutcome.usageError, noFiles) ∧
    exitCode (mainRun ["--output_txt", "out.txt"] exampleTables noFiles).1 ≠ 0) :=
  ⟨Or.inl (by decide),
    missing_option_usage_error ["--output_txt", "out.txt"] exampleTables noFiles
      (Or.inl (by decide))⟩

/-- Claim C8: when the input path is not readable, the run fails with a
`FileError` and the file map is returned unchanged — the output path is
neither created nor overwritten, since the input is read fully before
the output sink is opened. -/
theorem input_missing_output_untouched (tables : Tables) (files : Files)
    (ip op : String) (h : tables ip = none) :
    convertRun tables files ip op = (Outcome.fileError, files) := by
  simp [convertRun, h]

/-- Witness for C8 at an environment with no readable input. -/
theorem input_missing_output_untouched_witness :
    noTables "in.csv" = none ∧
    convertRun noTables noFiles "in.csv" "out.txt" = (Outcome.fileError, noFiles) :=
  ⟨rfl, input_missing_output_untouched noTables noFiles "in.csv" "out.txt" rfl⟩

/-- Claim C9: whenever the input is readable — so the output sink is
opened — the output path afterwards holds exactly the text written by
the run, on the success path and on the `KeyError` path alike: the
`with` block closes and flushes the sink before the call returns. -/
theorem output_always_flushed (tables : Tables) (files : Files) (ip op : String)
    (rows : List Row) (h : tables ip = some rows) :
    (convertRun tables files ip op).2 op = some (createSurveyWrites rows).1 := by
  rcases hw : createSurveyWrites rows with ⟨content, err⟩
  cases err <;> simp [convertRun, h, hw]

/-- Witness for C9 at the worked example's table. -/
theorem output_always_flushed_witness :
    exampleTables "in.csv" = some exampleRows ∧
    (convertRun exampleTables noFiles "in.csv" "out.txt").2 "out.txt" =
      some (createSurveyWrites exampleRows).1 :=
  ⟨rfl, output_always_flushed exampleTables noFiles "in.csv" "out.txt" exampleRows rfl⟩

/-- Claim C10: a row in which any required column's cell was empty in
the CSV does not fail and does not embed an empty string: the block is
rendered normally, and whichever of the topic, opinion or comment cells
was empty — having parsed to NaN — appears as the literal text `nan` in
that field's own template position. -/
theorem empty_cell_renders_nan (i : Nat) (row : Row) (t o c : CellValue)
    (h1 : rowGet row "topic" = some t)
    (h2 : rowGet row "opinion" = some o)
    (h3 : rowGet row "comment" = some c) :
    writeRowFields i row =
      (qidLines i ++ topicLine t ++ opinionLine o ++ commentLine c, none) ∧
    (t = parseCell "" → topicLine t = "<h4><strong>Topic:</strong> nan</h4>\n<br/>\n") ∧
    (o = parseCell "" → opinionLine o = "<h3><strong>Opinion:</strong> nan</h3>\n<br/>\n") ∧
    (c = parseCell "" → commentLine c = "<p><strong>&ldquo;nan&rdquo;</strong></p>") := by
  refine ⟨writeRowFields_complete i row t o c h1 h2 h3, ?_, ?_, ?_⟩
  · intro ht; rw [ht]; rfl
  · intro ho; rw [ho]; rfl
  · intro hc; rw [hc]; rfl

/-- Witness for C10 at a concrete row whose topic, opinion and comment
cells were all empty: every field position renders as `nan`. -/
theorem empty_cell_renders_nan_witness :
    (rowGet allNanRow "topic" = some (parseCell "") ∧
     rowGet allNanRow "opinion" = some (parseCell "") ∧
     rowGet allNanRow "comment" = some (parseCell "") ∧
     parseCell "" = CellValue.nan) ∧
    (writeRowFields 0 allNanRow =
      (qidLines 0 ++ topicLine (parseCell "") ++ opinionLine (parseCell "")
        ++ commentLine (parseCell ""), none) ∧
     topicLine (parseCell "") = "<h4><strong>Topic:</strong> nan</h4>\n<br/>\n" ∧
     opinionLine (parseCell "") = "<h3><strong>Opinion:</strong> nan</h3>\n<br/>\n" ∧
     commentLine (parseCell "") = "<p><strong>&ldquo;nan&rdquo;</strong></p>") :=
  ⟨⟨by decide, by decide, by decide, by decide⟩,
    (fun h => ⟨h.1, h.2.1 rfl, h.2.2.1 rfl, h.2.2.2 rfl⟩)
      (empty_cell_renders_nan 0 allNanRow (parseCell "") (parseCell "") (parseCell "")
        (by decide) (by decide) (by decide))⟩

end Qualtrics
